import Mathlib

/-!
Verification of tobrun/gpt-agent (package `gpt_oss_agent`).

Shallow embedding of the parts of the code the claims are about:

* `GPTOSSAgent._extract_response` and `GPTOSSAgent.chat`
  (src/gpt_oss_agent/core/agent.py),
* `ToolRegistry` and the web-search tool singletons
  (src/gpt_oss_agent/tools/registry.py, tools/web_search.py),
* `ExaSearchClient` (src/gpt_oss_agent/clients/exa.py) and the
  `ExaConfig` validation (src/gpt_oss_agent/config.py).

Python attribute access is modelled with `Option` (`none` = attribute
absent), Python truthiness with explicit emptiness tests, and Python
exceptions with `Except`.
-/

set_option maxHeartbeats 1000000

namespace GptOssAgent

/-- Python-like runtime values appearing in the fields of a `RunResult`:
strings and (possibly nested) lists. -/
inductive PVal where
| vstr (s : String)
| vlist (xs : List PVal)
deriving Repr

mutual

/-- Decidable equality for `PVal` (the nested `List` forces a manual
instance). -/
def PVal.decEq : (a b : PVal) → Decidable (a = b)
| PVal.vstr a, PVal.vstr b =>
  match String.decEq a b with
  | isTrue h => isTrue (by rw [h])
  | isFalse h => isFalse (by intro hh; cases hh; exact h rfl)
| PVal.vstr _, PVal.vlist _ => isFalse (by intro h; cases h)
| PVal.vlist _, PVal.vstr _ => isFalse (by intro h; cases h)
| PVal.vlist a, PVal.vlist b =>
  match PVal.decEqList a b with
  | isTrue h => isTrue (by rw [h])
  | isFalse h => isFalse (by intro hh; cases hh; exact h rfl)

/-- Decidable equality for lists of `PVal`. -/
def PVal.decEqList : (a b : List PVal) → Decidable (a = b)
| [], [] => isTrue rfl
| [], _ :: _ => isFalse (by intro h; cases h)
| _ :: _, [] => isFalse (by intro h; cases h)
| x :: xs, y :: ys =>
  match PVal.decEq x y, PVal.decEqList xs ys with
  | isTrue h1, isTrue h2 => isTrue (by rw [h1, h2])
  | isFalse h1, _ => isFalse (by intro hh; injection hh with hh1 hh2; exact h1 hh1)
  | _, isFalse h2 => isFalse (by intro hh; injection hh with hh1 hh2; exact h2 hh2)

end

instance : DecidableEq PVal := PVal.decEq

/-- Python truthiness for the values of `PVal`: a string is truthy iff
non-empty, a list iff non-empty. -/
def PVal.truthy : PVal → Bool
| PVal.vstr s => decide (s ≠ "")
| PVal.vlist xs => !xs.isEmpty

mutual

/-- Python `str(...)` on a `PVal`: a string is itself, a list is rendered
as its `repr` (elements with quotes, comma separated, in brackets). -/
def pyStr : PVal → String
| PVal.vstr s => s
| PVal.vlist xs => "[" ++ pyReprList xs ++ "]"

/-- Python `repr(...)` of a single value (strings get quotes). -/
def pyReprOne : PVal → String
| PVal.vstr s => "\x27" ++ s ++ "\x27"
| PVal.vlist xs => "[" ++ pyReprList xs ++ "]"

/-- Comma-separated `repr`s of the elements of a list. -/
def pyReprList : List PVal → String
| [] => ""
| [v] => pyReprOne v
| v :: w :: rest => pyReprOne v ++ ", " ++ pyReprList (w :: rest)

end

/-- Python `s.startswith(p)`. -/
def strStartsWith (s p : String) : Bool := p.data.isPrefixOf s.data

/-- Python `s.strip()`: whitespace removed from both ends. -/
def pyStrip (s : String) : String :=
  String.mk (((s.data.dropWhile Char.isWhitespace).reverse.dropWhile Char.isWhitespace).reverse)

/-- Substring occurrence over character lists. -/
def subOccurs (pat : List Char) : List Char → Bool
| [] => pat.isEmpty
| c :: rest => pat.isPrefixOf (c :: rest) || subOccurs pat rest

/-- Python `pat in s` on strings (substring test). -/
def pySub (pat s : String) : Bool := subOccurs pat.data s.data

/-- One element of `item.raw_item.content`: an object with an optional
`text` attribute (agent.py lines 189-193, 216-224). -/
structure ContentPart where
  text : Option String
deriving Repr, DecidableEq

/-- The `content` attribute of `item.raw_item`: either an iterable of
content parts or a plain string (agent.py lines 215-232). -/
inductive RawContent where
| rlist (parts : List ContentPart)
| rstr (s : String)
deriving Repr, DecidableEq

/-- One element of `result.new_items`: the optional `type` tag, the
optional `raw_item.content` (absent models a missing `raw_item` or a
`raw_item` without a `content` attribute), and the optional direct
`content` attribute of the item itself. -/
structure RunItem where
  type : Option String
  rawContent : Option RawContent
  content : Option PVal
deriving Repr, DecidableEq

/-- `response.choices[0]` of a raw response: `some s` models a present,
truthy `choice.message` whose `content` attribute holds `s`
(agent.py lines 252-258). -/
structure RRChoice where
  messageContent : Option String
deriving Repr, DecidableEq

/-- One element of `result.raw_responses` (agent.py lines 241-264). -/
structure RawResponse where
  choices : List RRChoice
  content : Option String
deriving Repr, DecidableEq

/-- The `RunResult` object returned by `Runner.run_sync`, restricted to
the attributes `_extract_response` looks at.  `none` models an absent
attribute; an absent `new_items`/`raw_responses` is modelled by `[]`
(the code treats absent and empty alike). -/
structure RunResult where
  finalOutput : Option PVal
  output : Option PVal
  outputs : Option PVal
  response : Option PVal
  content : Option PVal
  newItems : List RunItem
  rawResponses : List RawResponse
deriving Repr, DecidableEq

/-- The body of the alternative-attribute loop (agent.py lines 164-173):
a present value is used if truthy; a truthy list is replaced by its last
element, which is stringified only when itself truthy; otherwise the
loop continues with the next attribute. -/
def resolveAlt (v : PVal) : Option String :=
  if v.truthy then
    match v with
    | PVal.vlist xs =>
      match xs.getLast? with
      | some lastv => if lastv.truthy then some (pyStr lastv) else none
      | none => none
    | _ => some (pyStr v)
  else none

/-- The alternative-attribute loop over `output`, `outputs`, `response`,
`content`, in that order (agent.py line 165). -/
def tryAlts (r : RunResult) : Option String :=
  [r.output, r.outputs, r.response, r.content].findSome? (fun o => o.bind resolveAlt)

/-- `message_output_item` handling (agent.py lines 185-193): the first
content part with a present, truthy `text` attribute. -/
def firstPartText (parts : List ContentPart) : Option String :=
  parts.findSome? (fun p => p.text.bind (fun t => if t ≠ "" then some t else none))

/-- The reasoning-text heuristic (agent.py lines 222 and 230): accept a
candidate iff it does not start with "I need to", does not start with
"Let me", is longer than 50 characters, and does not start with "\x7b". -/
def respFilter (t : String) : Bool :=
  !strStartsWith t "I need to" && !strStartsWith t "Let me" &&
    decide (50 < t.length) && !strStartsWith t "\x7b"

/-- `reasoning_item` handling when `raw_item.content` is a list
(agent.py lines 215-224): first part whose present, truthy, non-blank
text passes `respFilter` after stripping. -/
def reasoningFromParts (parts : List ContentPart) : Option String :=
  parts.findSome? (fun p =>
    p.text.bind (fun t =>
      if t ≠ "" ∧ pyStrip t ≠ "" then
        (if respFilter (pyStrip t) then some (pyStrip t) else none)
      else none))

/-- `reasoning_item` handling over the whole `raw_item.content`
(agent.py lines 211-232): the list case and the string case. -/
def reasoningExtract : Option RawContent → Option String
| some (RawContent.rlist parts) => reasoningFromParts parts
| some (RawContent.rstr s) =>
    if pyStrip s ≠ "" then
      (if respFilter (pyStrip s) then some (pyStrip s) else none)
    else none
| none => none

/-- Python `'message' in ty` (substring test, agent.py line 196). -/
def containsMessage (ty : String) : Bool :=
  pySub "message" ty

/-- The last-resort direct-content check of the item loop (agent.py
lines 234-238): a plain `if`, executed for every item whose tagged
branches did not return; yields `item.content` when it is a present,
truthy string with non-blank strip. -/
def directContent (it : RunItem) : Option String :=
  match it.content with
  | some (PVal.vstr s) => if s ≠ "" ∧ pyStrip s ≠ "" then some s else none
  | _ => none

/-- One iteration of the `new_items` loop (agent.py lines 180-238):
the three `elif`-chained tagged branches, then the separate
direct-content check. -/
def itemExtract (it : RunItem) : Option String :=
  let tagged : Option String :=
    match it.type with
    | some ty =>
      if ty = "message_output_item" then
        (match it.rawContent with
         | some (RawContent.rlist parts) => firstPartText parts
         | _ => none)
      else if containsMessage ty then
        (match it.content with
         | some v => if v.truthy then some (pyStr v) else none
         | none => none)
      else if ty = "reasoning_item" then
        reasoningExtract it.rawContent
      else none
    | none => none
  tagged.orElse (fun _ => directContent it)

/-- The `new_items` scan, in reverse order, most recent item first
(agent.py line 180). -/
def extractFromItems (items : List RunItem) : Option String :=
  items.reverse.findSome? itemExtract

/-- One iteration of the `raw_responses` loop (agent.py lines 243-264):
`choices[0].message.content` (stripped) if present and non-blank, else
the response's own `content` attribute (unstripped) if non-blank. -/
def respExtract (resp : RawResponse) : Option String :=
  (match resp.choices.head? with
   | some ch =>
     ch.messageContent.bind (fun s =>
       if s ≠ "" ∧ pyStrip s ≠ "" then some (pyStrip s) else none)
   | none => none).orElse
  (fun _ =>
    match resp.content with
    | some s => if s ≠ "" ∧ pyStrip s ≠ "" then some s else none
    | none => none)

/-- The `raw_responses` scan (agent.py line 243). -/
def extractFromRaw (rs : List RawResponse) : Option String :=
  rs.findSome? respExtract

/-- Everything after the `final_output` tier of `_extract_response`:
the alternative attributes, the items scan, the raw-responses scan,
and the final `return ""` (agent.py lines 164-270). -/
def afterFinal (r : RunResult) : String :=
  (((tryAlts r).orElse (fun _ => extractFromItems r.newItems)).orElse
    (fun _ => extractFromRaw r.rawResponses)).getD ""

/-- `GPTOSSAgent._extract_response` (agent.py lines 139-270): the
`final_output` tier short-circuits everything else when present and
truthy. -/
def extractResponse (r : RunResult) : String :=
  match r.finalOutput with
  | some v => if v.truthy then pyStr v else afterFinal r
  | none => afterFinal r

/-- The exceptions `Runner.run_sync` can raise into `chat`
(exceptions.py): the `AgentError` family, `EmptyResponseError`
(a subclass of `AgentError`), and arbitrary other exceptions. -/
inductive PyExn where
| agentError (message : String)
| emptyResponse (message : String) (details : String)
| other (message : String)
deriving Repr, DecidableEq

/-- What `GPTOSSAgent.chat` does: return a string, or raise one of the
typed errors. -/
inductive ChatOutcome where
| ok (val : String)
| errAgent (message : String)
| errEmpty (message : String) (details : String)
deriving Repr, DecidableEq

/-- `GPTOSSAgent.chat` (agent.py lines 73-137), parameterised by the
outcome of the `Runner.run_sync` call: on success the response is
extracted; an empty extraction raises `EmptyResponseError` with message
"Agent completed but returned no output" and a details string built
from the `new_items` count; an exception from the runner is re-raised
as-is when it is of the `AgentError` family and otherwise wrapped into
`AgentError("Chat failed: ...")`. -/
def chat (runRes : Except PyExn RunResult) : ChatOutcome :=
  match runRes with
  | Except.error e =>
    match e with
    | PyExn.agentError m => ChatOutcome.errAgent m
    | PyExn.emptyResponse m d => ChatOutcome.errEmpty m d
    | PyExn.other m => ChatOutcome.errAgent ("Chat failed: " ++ m)
  | Except.ok r =>
    let resp := extractResponse r
    if resp = "" then
      ChatOutcome.errEmpty "Agent completed but returned no output"
        ("Result had " ++ toString r.newItems.length ++ " new_items. Debug info logged.")
    else ChatOutcome.ok resp

/-! ## Configuration (config.py) and Exa client (clients/exa.py) -/

/-- The `exa` section of `Settings` (config.py, class `ExaConfig`):
`api_key` is `Optional[str]` (`none` = not set), `enabled` the feature
flag, `max_results` the default result count (validated to 1..10 by
`Field(ge=1, le=10)`). -/
structure ExaSettings where
  apiKey : Option String
  enabled : Bool
  maxResults : Int
deriving Repr, DecidableEq

/-- Python `bool(api_key)`: truthy iff present and non-empty. -/
def keyTruthy : Option String → Bool
| none => false
| some s => decide (s ≠ "")

/-- The known placeholder credential value (clients/exa.py line 45). -/
def placeholderKey : String := "your_exa_api_key_here"

/-- `ExaConfig` construction including the `validate_enabled` validator
(config.py lines 65-70): a requested `enabled=True` is forced to
`False` when `api_key` is falsy. -/
def mkExaSettings (key : Option String) (enabledReq : Bool) (maxR : Int) : ExaSettings :=
  ⟨key, enabledReq && keyTruthy key, maxR⟩

/-- `ExaConfig.max_results` passes pydantic validation (ge=1, le=10). -/
def validMaxResults (s : ExaSettings) : Prop :=
  1 ≤ s.maxResults ∧ s.maxResults ≤ 10

/-- An `ExaSearchClient` as constructed by `__init__` (clients/exa.py
lines 22-37): it captures `settings.exa.api_key` and computes
`self.enabled = settings.exa.enabled and bool(api_key)` once, at
construction time. -/
structure ExaClient where
  apiKey : Option String
  enabled : Bool
deriving Repr, DecidableEq

/-- `ExaSearchClient.__init__` from a settings object. -/
def mkExaClient (s : ExaSettings) : ExaClient :=
  ⟨s.apiKey, s.enabled && keyTruthy s.apiKey⟩

/-- `ExaSearchClient.is_available` (clients/exa.py lines 39-45):
enabled, key truthy, and key different from the placeholder. -/
def ExaClient.isAvailable (c : ExaClient) : Bool :=
  c.enabled &&
    (match c.apiKey with
     | none => false
     | some k => decide (k ≠ "") && decide (k ≠ placeholderKey))

/-- The result-count normalisation inside `ExaSearchClient.search`
(clients/exa.py lines 85-87): `num_results or settings.exa.max_results`
(Python `or`: `None` and `0` are falsy), then replacement by 5 when the
value lies outside 1..10.  The returned number is the `numResults`
field of the issued request payload (line 98). -/
def clientNumResults (s : ExaSettings) (req : Option Int) : Int :=
  let n : Int :=
    match req with
    | none => s.maxResults
    | some k => if k = 0 then s.maxResults else k
  if n < 1 ∨ 10 < n then 5 else n

/-- The result-count normalisation inside `WebSearchTool.execute`
(tools/web_search.py lines 54-56), applied before the client is
called. -/
def toolNumResults (n : Int) : Int :=
  if n < 1 ∨ 10 < n then 5 else n

/-! ## Search / page-fetch error handling (clients/exa.py, tools/web_search.py) -/

/-- One result element of a parsed Exa response (dict keys modelled as
options; `none` = key absent). -/
structure ExaResultItem where
  title : Option String
  url : Option String
  text : Option String
  highlights : Option (List String)
  summary : Option String
deriving Repr, DecidableEq

/-- A parsed Exa response body (`response.json()`): the optional
`error` key and the optional `results` key. -/
structure ExaResults where
  error : Option String
  results : Option (List ExaResultItem)
deriving Repr, DecidableEq

/-- Outcome of the underlying `requests.post` call: a 200 response with
a parsed body, a non-200 response, a timeout, another request-level
failure, or an arbitrary other exception inside the try block. -/
inductive NetOutcome where
| ok (res : ExaResults)
| httpError (code : Int) (body : String)
| timeout
| requestFail (msg : String)
| otherFail (msg : String)
deriving Repr, DecidableEq

/-- A `WebSearchError` (exceptions.py): `message` is the full message
after the `ToolError` constructor prepends the tool name, `details` is
the optional details string. -/
structure WSE where
  message : String
  details : Option String
deriving Repr, DecidableEq

/-- `WebSearchError(m, d)`: `ToolError.__init__` turns the message into
`Tool \x27web_search\x27 error: m` (exceptions.py). -/
def mkWSE (m : String) (d : Option String) : WSE :=
  ⟨"Tool \x27web_search\x27 error: " ++ m, d⟩

/-- `ExaSearchClient.search` (clients/exa.py lines 47-133), restricted
to its control flow: the availability and empty-query guards raise
`WebSearchError`; every failure of the HTTP call is converted into a
`WebSearchError`; a 200 response returns the parsed body. -/
def clientSearch (c : ExaClient) (query : String) (net : NetOutcome) :
    Except WSE ExaResults :=
  if !c.isAvailable then
    Except.error (mkWSE "Exa search not available" (some "API key not configured or client disabled"))
  else if pyStrip query = "" then
    Except.error (mkWSE "Search query cannot be empty" none)
  else
    match net with
    | NetOutcome.ok res => Except.ok res
    | NetOutcome.httpError code body =>
      Except.error (mkWSE ("Search request failed with status " ++ toString code) (some body))
    | NetOutcome.timeout => Except.error (mkWSE "Search request timed out" none)
    | NetOutcome.requestFail m => Except.error (mkWSE ("Search request failed: " ++ m) none)
    | NetOutcome.otherFail m => Except.error (mkWSE ("Unexpected search error: " ++ m) none)

/-- `ExaSearchClient.get_content` (clients/exa.py lines 135-199), same
control flow with the URL guard (`if not url`, no strip). -/
def clientGetContent (c : ExaClient) (url : String) (net : NetOutcome) :
    Except WSE ExaResults :=
  if !c.isAvailable then
    Except.error (mkWSE "Exa search not available" (some "API key not configured or client disabled"))
  else if url = "" then
    Except.error (mkWSE "URL cannot be empty" none)
  else
    match net with
    | NetOutcome.ok res => Except.ok res
    | NetOutcome.httpError code body =>
      Except.error (mkWSE ("Content retrieval failed with status " ++ toString code) (some body))
    | NetOutcome.timeout => Except.error (mkWSE "Content retrieval timed out" none)
    | NetOutcome.requestFail m => Except.error (mkWSE ("Content retrieval failed: " ++ m) none)
    | NetOutcome.otherFail m => Except.error (mkWSE ("Unexpected content retrieval error: " ++ m) none)

/-- Snippet fallback on `summary` (clients/exa.py lines 229-232). -/
def snippetSum (r : ExaResultItem) : String :=
  match r.summary with
  | some su => if su ≠ "" then su else "No description available"
  | none => "No description available"

/-- Snippet fallback on `highlights` (clients/exa.py lines 227-228):
the first two highlights joined by a space. -/
def snippetAlt (r : ExaResultItem) : String :=
  match r.highlights with
  | some hs =>
    if hs ≠ [] then String.intercalate " " (hs.take 2) else snippetSum r
  | none => snippetSum r

/-- Snippet selection inside `format_search_results` (clients/exa.py
lines 223-232): text (truncated beyond 300 characters), else the first
two highlights, else the summary, else a fixed fallback. -/
def snippetOf (r : ExaResultItem) : String :=
  match r.text with
  | some t =>
    if t ≠ "" then (if 300 < t.length then t.take 300 ++ "..." else t)
    else snippetAlt r
  | none => snippetAlt r

/-- The three lines appended per result (clients/exa.py lines 234-236),
with 1-based numbering. -/
def formatItemLines (idx : Nat) (r : ExaResultItem) : List String :=
  ["\n" ++ toString idx ++ ". " ++ r.title.getD "No title",
   "   URL: " ++ r.url.getD "No URL",
   "   " ++ snippetOf r]

/-- `ExaSearchClient.format_search_results` (clients/exa.py lines
201-240). -/
def formatSearchResults (res : ExaResults) (query : String) : String :=
  match res.error with
  | some e => "Search error: " ++ e
  | none =>
    let base := ["Web search results for: \x27" ++ query ++ "\x27",
                 String.mk (List.replicate 50 '=')]
    let lines :=
      match res.results with
      | some items =>
        if items ≠ [] then
          base ++ (items.enum.map (fun p => formatItemLines (p.1 + 1) p.2)).flatten
        else base ++ ["No results found for this query."]
      | none => base ++ ["No results found for this query."]
    String.intercalate "\n" lines

/-- `ExaSearchClient.format_page_content` (clients/exa.py lines
242-275). -/
def formatPageContent (res : ExaResults) (url : String) : String :=
  match res.error with
  | some e => "Error: " ++ e
  | none =>
    match res.results with
    | some (r :: _) =>
      let base := "Title: " ++ r.title.getD "No title" ++ "\nURL: " ++ url ++ "\n\n"
      let su := r.summary.getD ""
      let base := if su ≠ "" then base ++ "Summary: " ++ su ++ "\n\n" else base
      let tx := r.text.getD ""
      if tx ≠ "" then
        (if 2000 < tx.length then base ++ "Content (truncated): " ++ tx.take 2000 ++ "...\n"
         else base ++ "Content: " ++ tx ++ "\n")
      else base
    | _ => "Error: No content found for URL: " ++ url

/-- An exception reaching a tool's `except` clauses: either a
`WebSearchError` or any other exception (message string). -/
inductive ToolExn where
| ws (e : WSE)
| other (msg : String)
deriving Repr, DecidableEq

/-- The suffix appended to a tool error message when the error carries
details (tools/web_search.py lines 72-73 and 126-127). -/
def detailSuffix : Option String → String
| some d => " (" ++ d ++ ")"
| none => ""

/-- `WebSearchTool.execute` (tools/web_search.py lines 38-77),
parameterised by the outcome of the try block (search plus
formatting): the availability and empty-query guards return error
strings; an escaped `WebSearchError` becomes a `Web search error:`
string; any other exception becomes an `Error: Unexpected ...`
string.  The return type `String` (not `Except`) records that no
exception escapes the tool. -/
def wsExecute (c : ExaClient) (q : String) (body : Except ToolExn String) : String :=
  if !c.isAvailable then "Error: Web search not available - Exa API key not configured"
  else if pyStrip q = "" then "Error: Search query cannot be empty"
  else
    match body with
    | Except.ok s => s
    | Except.error (ToolExn.ws e) =>
      "Web search error: " ++ (e.message ++ detailSuffix e.details)
    | Except.error (ToolExn.other m) => "Error: Unexpected web search error: " ++ m

/-- The try-block body of `WebSearchTool.execute`: run the client
search and format the result; a raised `WebSearchError` propagates to
the handlers of `execute`. -/
def wsBody (c : ExaClient) (q : String) (net : NetOutcome) : Except ToolExn String :=
  match clientSearch c q net with
  | Except.ok res => Except.ok (formatSearchResults res q)
  | Except.error e => Except.error (ToolExn.ws e)

/-- `WebSearchTool.execute` end to end over a network outcome. -/
def wsExecuteNet (c : ExaClient) (q : String) (net : NetOutcome) : String :=
  wsExecute c q (wsBody c q net)

/-- `PageContentTool.execute` (tools/web_search.py lines 97-131). -/
def pcExecute (c : ExaClient) (u : String) (body : Except ToolExn String) : String :=
  if !c.isAvailable then "Error: Page content retrieval not available - Exa API key not configured"
  else if u = "" then "Error: URL cannot be empty"
  else
    match body with
    | Except.ok s => s
    | Except.error (ToolExn.ws e) =>
      "Page content error: " ++ (e.message ++ detailSuffix e.details)
    | Except.error (ToolExn.other m) => "Error: Unexpected page content error: " ++ m

/-- The try-block body of `PageContentTool.execute`. -/
def pcBody (c : ExaClient) (u : String) (net : NetOutcome) : Except ToolExn String :=
  match clientGetContent c u net with
  | Except.ok res => Except.ok (formatPageContent res u)
  | Except.error e => Except.error (ToolExn.ws e)

/-- `PageContentTool.execute` end to end over a network outcome. -/
def pcExecuteNet (c : ExaClient) (u : String) (net : NetOutcome) : String :=
  pcExecute c u (pcBody c u net)

/-! ## Tool registry (tools/registry.py) and web_search module state -/

/-- A `_tool_status` entry, restricted to the fields the claims are
about (registry.py lines 57-70). -/
structure ToolStatus where
  available : Bool
  category : Option String
  requires : Option String
deriving Repr, DecidableEq

/-- The mutable state of a `ToolRegistry`: the `_tools` dict (keys, in
insertion order) and the `_tool_status` dict. -/
structure RegistryState where
  tools : List String
  toolStatus : List (String × ToolStatus)
deriving Repr, DecidableEq

/-- The process-wide state the registry code reads: the global settings
(config.py `get_settings`), the module-level `_web_search_tool`
singleton of tools/web_search.py (modelled by its captured
`ExaSearchClient`; `none` = not yet created), and the registry.
The `_page_content_tool` singleton never influences discovery or
status (only `get_web_search_tool` is consulted) and is omitted. -/
structure World where
  settings : ExaSettings
  wsTool : Option ExaClient
  registry : RegistryState
deriving Repr, DecidableEq

/-- `get_web_search_tool` (tools/web_search.py lines 139-144): return
the module-level singleton, creating it from the current global
settings only if it does not exist yet. -/
def getWebTool (w : World) : ExaClient × World :=
  match w.wsTool with
  | some c => (c, w)
  | none =>
    let c := mkExaClient w.settings
    (c, ⟨w.settings, some c, w.registry⟩)

/-- The two registered web tool names. -/
def webToolNames : List String := ["web_search", "get_page_content"]

/-- `get_available_tools` of tools/web_search.py (lines 236-247): both
function tools iff the singleton web-search tool reports available. -/
def availableWebTools (w : World) : List String × World :=
  let p := getWebTool w
  (if p.1.isAvailable then webToolNames else [], p.2)

/-- `check_tools_status` (tools/web_search.py lines 219-233): builds a
fresh `ExaSearchClient` from the current settings and reports its
availability for both tool names. -/
def checkToolsStatusB (s : ExaSettings) : Bool :=
  (mkExaClient s).isAvailable

/-- Dict insertion for `_tools` (existing key keeps its position). -/
def insertName (ts : List String) (n : String) : List String :=
  if ts.contains n then ts else ts ++ [n]

/-- Dict upsert for `_tool_status`. -/
def upsert (l : List (String × ToolStatus)) (k : String) (v : ToolStatus) :
    List (String × ToolStatus) :=
  if l.any (fun p => p.1 == k) then l.map (fun p => if p.1 == k then (k, v) else p)
  else l ++ [(k, v)]

/-- The status entry `_update_tool_status` computes for one tool
(registry.py lines 56-70): web tools get `available` from
`check_tools_status` (a fresh client over the settings current at this
update), category `web_search`, requirement `exa_api_key`; anything
else keeps the default `available=False`. -/
def statusFor (s : ExaSettings) (n : String) : ToolStatus :=
  if webToolNames.contains n then
    ⟨checkToolsStatusB s, some "web_search", some "exa_api_key"⟩
  else ⟨false, none, none⟩

/-- `ToolRegistry._update_tool_status` (registry.py lines 51-70). -/
def updateToolStatus (w : World) : World :=
  let st := w.registry.tools.foldl (fun acc n => upsert acc n (statusFor w.settings n))
    w.registry.toolStatus
  ⟨w.settings, w.wsTool, ⟨w.registry.tools, st⟩⟩

/-- `ToolRegistry._discover_tools` (registry.py lines 34-49): register
the web tools reported by `get_available_tools` of the web_search
module, then update the status dict. -/
def discoverTools (w : World) : World :=
  let p := availableWebTools w
  let w1 := p.2
  let tools := p.1.foldl insertName w1.registry.tools
  updateToolStatus ⟨w1.settings, w1.wsTool, ⟨tools, w1.registry.toolStatus⟩⟩

/-- `ToolRegistry.__init__` (registry.py lines 21-32): empty dicts,
then discovery. -/
def mkRegistryW (w : World) : World :=
  discoverTools ⟨w.settings, w.wsTool, ⟨[], []⟩⟩

/-- `ToolRegistry.refresh` (registry.py lines 179-184): clear both
dicts and re-discover. -/
def refreshW (w : World) : World :=
  discoverTools ⟨w.settings, w.wsTool, ⟨[], []⟩⟩

/-- `ToolRegistry.get_tool_status(name)` (registry.py lines 108-120):
a plain lookup in the `_tool_status` dict; `none` models the `{}`
returned for an unknown name. -/
def getToolStatusW (w : World) (name : String) : Option ToolStatus :=
  (w.registry.toolStatus.find? (fun p => p.1 == name)).map (fun p => p.2)

/-- `ToolRegistry.is_tool_available` (registry.py lines 97-106):
`.get(name, \x7b\x7d).get(\x27available\x27, False)`. -/
def isToolAvailableW (w : World) (name : String) : Bool :=
  match getToolStatusW w name with
  | some st => st.available
  | none => false

/-- Replacing the global settings object (a `reload_settings()` /
`configure_from_dict` with new values); nothing else changes. -/
def setSettings (w : World) (s : ExaSettings) : World :=
  ⟨s, w.wsTool, w.registry⟩

/-- A fresh process: given settings, no singleton yet, empty registry. -/
def initWorld (s : ExaSettings) : World :=
  ⟨s, none, ⟨[], []⟩⟩

/-! ## Concrete inputs used by the claims -/

/-- A `RunResult` whose only content is one reasoning item whose
`raw_item.content` is the string `t`. -/
def reasonOnlyR (t : String) : RunResult :=
  ⟨none, none, none, none, none,
   [⟨some "reasoning_item", some (RawContent.rstr t), none⟩], []⟩

/-- A `RunResult` whose only content is one reasoning item whose
`raw_item.content` is a one-element list with text `t`. -/
def reasonPartsR (t : String) : RunResult :=
  ⟨none, none, none, none, none,
   [⟨some "reasoning_item", some (RawContent.rlist [⟨some t⟩]), none⟩], []⟩

/-! ## Helper lemmas -/

/-- A string accepted by the reasoning filter is non-empty (its length
exceeds 50). -/
lemma respFilter_ne_empty (s : String) (h : respFilter s = true) : s ≠ "" := by
  intro he
  rw [he] at h
  exact absurd h (by decide)

/-- A string with non-empty strip is non-empty. -/
lemma pyStrip_ne_imp (s : String) (h : pyStrip s ≠ "") : s ≠ "" := by
  intro he
  rw [he] at h
  exact h rfl

/-- `containsMessage` is false on the reasoning tag. -/
lemma containsMessage_reasoning : containsMessage "reasoning_item" = false := by decide

/-- Extraction from a `RunResult` with no terminal/alternative fields,
a single item and no raw responses reduces to that item. -/
lemma extract_one_item (it : RunItem) :
    extractResponse ⟨none, none, none, none, none, [it], []⟩ = (itemExtract it).getD "" := by
  cases hX : itemExtract it with
  | none =>
    simp [extractResponse, afterFinal, tryAlts, extractFromItems, extractFromRaw, hX]
  | some s =>
    simp [extractResponse, afterFinal, tryAlts, extractFromItems, extractFromRaw, hX]

/-- The item step on a reasoning item: the tagged branch runs the
reasoning handler, then the direct-content check. -/
lemma itemExtract_reason (rc : Option RawContent) (c : Option PVal) :
    itemExtract ⟨some "reasoning_item", rc, c⟩ =
      (reasoningExtract rc).orElse
        (fun _ => directContent ⟨some "reasoning_item", rc, c⟩) := by
  simp [itemExtract, containsMessage_reasoning]

/-! ## Claim C1 -/

/-- Claim C1: for every `RunResult` whose `final_output` is present and
truthy, `_extract_response` returns exactly `str(final_output)`,
whatever the other fields hold; no further tier is consulted. -/
theorem c1_final_output_short_circuit (r : RunResult) (v : PVal)
    (hattr : r.finalOutput = some v) (ht : v.truthy = true) :
    extractResponse r = pyStr v := by
  simp [extractResponse, hattr, ht]

/-- Witness for C1 at a concrete input whose alternative fields, items
and raw responses are all populated with different values. -/
theorem c1_witness :
    extractResponse
      ⟨some (PVal.vstr "final"), some (PVal.vstr "alternative"),
       some (PVal.vlist [PVal.vstr "o1"]), some (PVal.vstr "resp"),
       some (PVal.vstr "cont"),
       [⟨some "message_output_item", some (RawContent.rlist [⟨some "item text"⟩]), none⟩],
       [⟨[⟨some "raw choice text"⟩], some "raw content"⟩]⟩ = "final" :=
  c1_final_output_short_circuit _ (PVal.vstr "final") rfl (by decide)

/-! ## Claim C2 -/

/-- Claim C2: in the reverse items scan, a text candidate inside a
reasoning item is returned iff its stripped form passes the heuristic
filter (no "I need to" start, no "Let me" start, length above 50, no
brace start); on the two concrete reasoning texts of the claim the
extractor returns the empty sentinel and the text itself,
respectively. -/
theorem c2_reasoning_filter :
    (∀ t : String,
       extractResponse (reasonOnlyR t) =
         (if respFilter (pyStrip t) then pyStrip t else "")) ∧
    (∀ t : String,
       extractResponse (reasonPartsR t) =
         (if respFilter (pyStrip t) then pyStrip t else "")) ∧
    extractResponse (reasonOnlyR "Let me think about this problem first.") = "" ∧
    extractResponse (reasonOnlyR "The answer to your question is that photosynthesis converts light energy into chemical energy.") =
      "The answer to your question is that photosynthesis converts light energy into chemical energy." := by
  refine ⟨?_, ?_, ?_, ?_⟩
  · intro t
    rw [show reasonOnlyR t =
          ⟨none, none, none, none, none,
           [⟨some "reasoning_item", some (RawContent.rstr t), none⟩], []⟩ from rfl,
        extract_one_item, itemExtract_reason]
    by_cases hf : respFilter (pyStrip t) = true
    · have hne : pyStrip t ≠ "" := respFilter_ne_empty _ hf
      simp [reasoningExtract, directContent, hf, hne]
    · simp [reasoningExtract, directContent, hf]
  · intro t
    rw [show reasonPartsR t =
          ⟨none, none, none, none, none,
           [⟨some "reasoning_item", some (RawContent.rlist [⟨some t⟩]), none⟩], []⟩ from rfl,
        extract_one_item, itemExtract_reason]
    by_cases hf : respFilter (pyStrip t) = true
    · have hne : pyStrip t ≠ "" := respFilter_ne_empty _ hf
      have hne2 : t ≠ "" := pyStrip_ne_imp _ hne
      simp [reasoningExtract, reasoningFromParts, directContent, hf, hne, hne2]
    · simp [reasoningExtract, reasoningFromParts, directContent, hf]
  · rfl
  · rfl

/-! ## Claim C9 -/

/-- A `RunResult` whose later (scanned first) item is a reasoning item
with rejected text `t` and a direct string content `c`, preceded by an
item that would succeed and followed by a usable raw response. -/
def directContentR (t c : String) : RunResult :=
  ⟨none, none, none, none, none,
   [⟨some "message_output_item", some (RawContent.rlist [⟨some "earlier answer"⟩]), none⟩,
    ⟨some "reasoning_item", some (RawContent.rstr t), some (PVal.vstr c)⟩],
   [⟨[], some "raw response text"⟩]⟩

/-- Claim C9: the last-resort direct-content check runs for every item
regardless of its tag: a reasoning item whose text the heuristic
rejects but which carries a non-empty direct string content yields that
content from the same item, before any earlier item or the
raw-responses tier. -/
theorem c9_direct_content_fallback (t c : String)
    (hrej : respFilter (pyStrip t) = false) (hc : pyStrip c ≠ "") :
    extractResponse (directContentR t c) = c := by
  have hcn : c ≠ "" := pyStrip_ne_imp _ hc
  have hitem : itemExtract ⟨some "reasoning_item", some (RawContent.rstr t), some (PVal.vstr c)⟩ = some c := by
    rw [itemExtract_reason]
    simp [reasoningExtract, directContent, hrej, hc, hcn]
  simp [directContentR, extractResponse, afterFinal, tryAlts, extractFromItems,
    extractFromRaw, hitem]

/-- Witness for C9: rejected reasoning text plus direct content. -/
theorem c9_witness :
    extractResponse (directContentR "Let me think" "The direct answer.") = "The direct answer." :=
  c9_direct_content_fallback "Let me think" "The direct answer." (by decide) (by decide)

/-! ## Claim C4 -/

/-- A `RunResult` with falsy `final_output`, no `output` attribute, a
non-empty `outputs` list whose last element is the empty string, and a
non-empty `response` attribute. -/
def altProbeCex : RunResult :=
  ⟨some (PVal.vstr ""), none,
   some (PVal.vlist [PVal.vstr "a", PVal.vstr ""]),
   some (PVal.vstr "hello"), none, [], []⟩

/-- Counterexample to C4 as stated: on `altProbeCex` the first present
and non-empty alternative field is `outputs`, whose stringified last
element is `""`; the claim therefore predicts `""`, but the extractor
skips the falsy last element, continues the probe, and returns the
`response` value `"hello"`. -/
theorem c4_counterexample :
    altProbeCex.output = none ∧
    altProbeCex.outputs = some (PVal.vlist [PVal.vstr "a", PVal.vstr ""]) ∧
    (PVal.vlist [PVal.vstr "a", PVal.vstr ""]).truthy = true ∧
    [PVal.vstr "a", PVal.vstr ""].getLast? = some (PVal.vstr "") ∧
    pyStr (PVal.vstr "") = "" ∧
    extractResponse altProbeCex = "hello" ∧
    ("hello" : String) ≠ "" :=
  ⟨rfl, rfl, by decide, rfl, rfl, rfl, by decide⟩

/-- Claim C4 amended: with falsy/absent `final_output` and no usable
`output`, a present `outputs` list is used only when its last element
is itself non-empty, in which case the extractor returns that element
stringified (otherwise the probe continues with the later fields). -/
theorem c4_outputs_last_element (r : RunResult) (xs : List PVal) (lastv : PVal)
    (hfo : r.finalOutput = none ∨ ∃ v, r.finalOutput = some v ∧ v.truthy = false)
    (ho : r.output = none)
    (hos : r.outputs = some (PVal.vlist xs))
    (hl : xs.getLast? = some lastv)
    (hlt : lastv.truthy = true) :
    extractResponse r = pyStr lastv := by
  have hxs : xs ≠ [] := by
    intro he
    rw [he] at hl
    simp at hl
  have hxt : PVal.truthy (PVal.vlist xs) = true := by
    simp [PVal.truthy, hxs]
  have halt : tryAlts r = some (pyStr lastv) := by
    simp [tryAlts, List.findSome?_cons, ho, hos, resolveAlt, hxt, hl, hlt]
  have hafter : afterFinal r = pyStr lastv := by
    simp [afterFinal, halt]
  rcases hfo with h | ⟨v, hv, hvf⟩
  · simp [extractResponse, h, hafter]
  · simp [extractResponse, hv, hvf, hafter]

/-- Witness for C4 amended: non-empty last element of `outputs` wins
over a populated `response` field. -/
theorem c4_witness :
    extractResponse
      ⟨some (PVal.vstr ""), none,
       some (PVal.vlist [PVal.vstr "a", PVal.vstr "b"]),
       some (PVal.vstr "hello"), none, [], []⟩ = "b" :=
  c4_outputs_last_element _ [PVal.vstr "a", PVal.vstr "b"] (PVal.vstr "b")
    (Or.inr ⟨PVal.vstr "", rfl, by decide⟩) rfl rfl rfl (by decide)

/-! ## Claim C3 -/

/-- A `RunResult` with a single unusable tool-call item. -/
def emptyResA : RunResult :=
  ⟨none, none, none, none, none, [⟨some "tool_call_item", none, none⟩], []⟩

/-- A `RunResult` with a single rejected reasoning item: same item
count as `emptyResA`, different item details. -/
def emptyResB : RunResult :=
  ⟨none, none, none, none, none,
   [⟨some "reasoning_item", some (RawContent.rstr "Let me see"), none⟩], []⟩

/-- Counterexample to C3 as stated: two results with the same item
count but different result contents (type tags, item payloads) produce
*identical* `EmptyResponseError` values, so the raised error does not
carry the result-type description or per-item details; those go only to
the logger. -/
theorem c3_counterexample :
    chat (Except.ok emptyResA) = chat (Except.ok emptyResB) ∧
    emptyResA.newItems ≠ emptyResB.newItems ∧
    chat (Except.ok emptyResA) =
      ChatOutcome.errEmpty "Agent completed but returned no output"
        "Result had 1 new_items. Debug info logged." :=
  ⟨rfl, by decide, rfl⟩

/-- Claim C3 amended: extraction is a total function (it returns a
string, never raises); `chat` raises `EmptyResponseError` exactly when
the extractor returns the sentinel, and that error carries the
`new_items` count in its details (the result-type description and
per-item details are only logged); a non-`AgentError` exception from
the runner is wrapped into `AgentError("Chat failed: ...")`, while
`AgentError`-family exceptions are re-raised unchanged. -/
theorem c3_chat_error_semantics :
    (∀ r : RunResult, extractResponse r = "" →
       chat (Except.ok r) =
         ChatOutcome.errEmpty "Agent completed but returned no output"
           ("Result had " ++ toString r.newItems.length ++ " new_items. Debug info logged.")) ∧
    (∀ r : RunResult, extractResponse r ≠ "" →
       chat (Except.ok r) = ChatOutcome.ok (extractResponse r)) ∧
    (∀ m : String, chat (Except.error (PyExn.other m)) =
       ChatOutcome.errAgent ("Chat failed: " ++ m)) ∧
    (∀ m : String, chat (Except.error (PyExn.agentError m)) = ChatOutcome.errAgent m) ∧
    (∀ m d : String, chat (Except.error (PyExn.emptyResponse m d)) =
       ChatOutcome.errEmpty m d) := by
  refine ⟨?_, ?_, ?_, ?_, ?_⟩
  · intro r h
    simp [chat, h]
  · intro r h
    simp [chat, h]
  · intro m; rfl
  · intro m; rfl
  · intro m d; rfl

/-- Witness for C3 amended: the sentinel branch at `emptyResA` and the
success branch at a result with a truthy `final_output`. -/
theorem c3_witness :
    chat (Except.ok emptyResA) =
      ChatOutcome.errEmpty "Agent completed but returned no output"
        "Result had 1 new_items. Debug info logged." ∧
    chat (Except.ok ⟨some (PVal.vstr "hi"), none, none, none, none, [], []⟩) =
      ChatOutcome.ok "hi" :=
  ⟨c3_chat_error_semantics.1 emptyResA rfl,
   c3_chat_error_semantics.2.1 ⟨some (PVal.vstr "hi"), none, none, none, none, [], []⟩ (by decide)⟩

/-! ## Claims C5 and C6 -/

/-- Settings with a valid credential. -/
def validS : ExaSettings := mkExaSettings (some "exa_live_key_123") true 5

/-- Settings with no credential. -/
def noKeyS : ExaSettings := mkExaSettings none true 5

/-- Settings with the empty string as credential. -/
def emptyKeyS : ExaSettings := mkExaSettings (some "") true 5

/-- Settings with the placeholder credential. -/
def placeholderS : ExaSettings := mkExaSettings (some "your_exa_api_key_here") true 5

/-- A registry built under a valid credential, after which the global
settings are replaced by credential-less ones (no `refresh()`). -/
def staleWorld : World := setSettings (mkRegistryW (initWorld validS)) noKeyS

/-- Counterexample to C5 as stated: after the credential is removed
from the settings, a `get_tool_status` call still reports the
`available=true` computed at discovery time, although recomputation
from the current configuration (a fresh client, as `refresh()` would
use) gives `false`; only a `refresh()` brings the status down. -/
theorem c5_counterexample :
    isToolAvailableW staleWorld "web_search" = true ∧
    checkToolsStatusB staleWorld.settings = false ∧
    isToolAvailableW (refreshW staleWorld) "web_search" = false :=
  ⟨rfl, rfl, rfl⟩

/-- Claim C5 amended: `get_tool_status` is a pure lookup in the cached
`_tool_status` dict — changing the settings without `refresh()` never
changes its answer — and the cached availability for the web-search
tool is the one computed at construction/refresh time from the
settings current at that moment (via a fresh client), recorded only
when the singleton-gated discovery registered the tool at all. -/
theorem c5_status_is_cached :
    (∀ (w : World) (s : ExaSettings) (n : String),
       getToolStatusW (setSettings w s) n = getToolStatusW w n) ∧
    (∀ w : World,
       getToolStatusW (mkRegistryW w) "web_search" =
         (if (getWebTool w).1.isAvailable then some (statusFor w.settings "web_search")
          else none)) := by
  refine ⟨fun w s n => rfl, fun w => ?_⟩
  cases hw : w.wsTool with
  | none =>
    cases hc : (mkExaClient w.settings).isAvailable with
    | false =>
      simp [mkRegistryW, discoverTools, availableWebTools, getWebTool, hw, hc,
        updateToolStatus, getToolStatusW]
    | true =>
      simp [mkRegistryW, discoverTools, availableWebTools, getWebTool, hw, hc,
        updateToolStatus, webToolNames, insertName, upsert, statusFor,
        getToolStatusW, checkToolsStatusB]
  | some c =>
    cases hc : c.isAvailable with
    | false =>
      simp [mkRegistryW, discoverTools, availableWebTools, getWebTool, hw, hc,
        updateToolStatus, getToolStatusW]
    | true =>
      simp [mkRegistryW, discoverTools, availableWebTools, getWebTool, hw, hc,
        updateToolStatus, webToolNames, insertName, upsert, statusFor,
        getToolStatusW, checkToolsStatusB]

/-- The C6 round-trip as run by the code: registry constructed under an
empty credential, then a valid credential is supplied and `refresh()`
is called. -/
def refreshWorld : World := refreshW (setSettings (mkRegistryW (initWorld emptyKeyS)) validS)

/-- C6 evaluated on the code: with an empty or placeholder credential
the web-search tool is unavailable (it is not even registered), and —
against the claim — after supplying a valid credential and calling
`refresh()` the status still has no `web_search` entry and reports
unavailable, because the module-level `_web_search_tool` singleton
keeps the Exa client captured under the old settings; a fresh client
over the new settings would be available. -/
theorem c6_refresh_misses_new_credential :
    isToolAvailableW (mkRegistryW (initWorld emptyKeyS)) "web_search" = false ∧
    isToolAvailableW (mkRegistryW (initWorld placeholderS)) "web_search" = false ∧
    checkToolsStatusB validS = true ∧
    getToolStatusW refreshWorld "web_search" = none ∧
    isToolAvailableW refreshWorld "web_search" = false :=
  ⟨rfl, rfl, rfl, rfl, rfl⟩

/-! ## Claims C7 and C10 -/

/-- Settings with a valid credential and a configured default of 7
results. -/
def sevenS : ExaSettings := mkExaSettings (some "exa_live_key_123") true 7

/-- Counterexample to C7 as stated: the requested count 0 lies outside
[1,10], yet `ExaSearchClient.search` issues the configured default
`max_results = 7`, not 5 (Python `num_results or max_results` treats 0
as falsy before the range check runs). -/
theorem c7_counterexample :
    ((0 : Int) < 1 ∨ 10 < (0 : Int)) ∧
    clientNumResults sevenS (some 0) = 7 ∧
    (7 : Int) ≠ 5 := by
  refine ⟨Or.inl (by norm_num), rfl, by norm_num⟩

/-- Claim C7 amended: a nonzero requested count outside [1,10] is
replaced by the default 5 at the client layer, and any out-of-range
count (including 0) passed through the tool layer reaches the request
as 5, since `WebSearchTool.execute` normalises it before calling the
client. -/
theorem c7_out_of_range_count (s : ExaSettings) (n : Int) (hout : n < 1 ∨ 10 < n) :
    (n ≠ 0 → clientNumResults s (some n) = 5) ∧
    clientNumResults s (some (toolNumResults n)) = 5 := by
  constructor
  · intro hn
    simp [clientNumResults, hn, hout]
  · have h5 : toolNumResults n = 5 := by simp [toolNumResults, hout]
    rw [h5]
    simp [clientNumResults]

/-- Witness for C7 amended at the claim's example `numResults=15`. -/
theorem c7_witness :
    clientNumResults sevenS (some 15) = 5 ∧
    clientNumResults sevenS (some (toolNumResults 15)) = 5 :=
  ⟨(c7_out_of_range_count sevenS 15 (Or.inr (by norm_num))).1 (by norm_num),
   (c7_out_of_range_count sevenS 15 (Or.inr (by norm_num))).2⟩

/-- Claim C10: a `search` call with `num_results` equal to `None` or 0
issues the configured default `max_results` (which configuration
validation confines to [1,10]), not the constant 5; the replacement by
5 applies only to nonzero supplied values outside [1,10]. -/
theorem c10_falsy_count_uses_config_default (s : ExaSettings)
    (h1 : 1 ≤ s.maxResults) (h2 : s.maxResults ≤ 10) :
    clientNumResults s none = s.maxResults ∧
    clientNumResults s (some 0) = s.maxResults ∧
    (∀ n : Int, n ≠ 0 → (n < 1 ∨ 10 < n) → clientNumResults s (some n) = 5) := by
  have hin : ¬(s.maxResults < 1 ∨ 10 < s.maxResults) := by omega
  refine ⟨by simp [clientNumResults, hin], by simp [clientNumResults, hin], ?_⟩
  intro n hn hout
  simp [clientNumResults, hn, hout]

/-- Witness for C10 with configured default 7. -/
theorem c10_witness :
    clientNumResults sevenS none = 7 ∧
    clientNumResults sevenS (some 0) = 7 ∧
    clientNumResults sevenS (some 15) = 5 :=
  ⟨(c10_falsy_count_uses_config_default sevenS (by decide) (by decide)).1,
   (c10_falsy_count_uses_config_default sevenS (by decide) (by decide)).2.1,
   (c10_falsy_count_uses_config_default sevenS (by decide) (by decide)).2.2 15
     (by norm_num) (Or.inr (by norm_num))⟩

/-! ## Claim C8 -/

/-- A descriptive error string as seen by the model: the marker forms
a tool may return (`Error...`, `Web search error:`,
`Page content error:`). -/
def isErrText (s : String) : Bool :=
  strStartsWith s "Error" || strStartsWith s "Web search error:" ||
    strStartsWith s "Page content error:"

/-- A prefix of `b` is a prefix of `b ++ s`. -/
lemma strStartsWith_append (b s p : String) (h : strStartsWith b p = true) :
    strStartsWith (b ++ s) p = true := by
  unfold strStartsWith at h ⊢
  rw [String.data_append]
  rw [List.isPrefixOf_iff_prefix] at h ⊢
  exact h.trans (List.prefix_append _ _)

/-- Appending detail text keeps an error marker. -/
lemma isErrText_append (b s : String) (h : isErrText b = true) :
    isErrText (b ++ s) = true := by
  unfold isErrText at h ⊢
  simp only [Bool.or_eq_true] at h ⊢
  rcases h with (h | h) | h
  · exact Or.inl (Or.inl (strStartsWith_append _ _ _ h))
  · exact Or.inl (Or.inr (strStartsWith_append _ _ _ h))
  · exact Or.inr (strStartsWith_append _ _ _ h)

/-- Claim C8: the model-facing tool entry points always return a
string (the `String` return type of `wsExecute`/`pcExecute` — no
exception escapes): on a genuine success the formatted result is
passed through unchanged, and in every failure mode — unavailability,
empty query/URL, timeout, transport failure, non-200 response,
unexpected exception — the returned string carries a descriptive
error marker. -/
theorem c8_tool_errors_as_strings :
    (∀ (c : ExaClient) (q : String) (body : Except ToolExn String),
       (∃ s, body = Except.ok s ∧ wsExecute c q body = s) ∨
         isErrText (wsExecute c q body) = true) ∧
    (∀ (c : ExaClient) (u : String) (body : Except ToolExn String),
       (∃ s, body = Except.ok s ∧ pcExecute c u body = s) ∨
         isErrText (pcExecute c u body) = true) ∧
    (∀ (c : ExaClient) (q : String) (code : Int) (rbody : String),
       isErrText (wsExecuteNet c q (NetOutcome.httpError code rbody)) = true) ∧
    (∀ (c : ExaClient) (q : String),
       isErrText (wsExecuteNet c q NetOutcome.timeout) = true) ∧
    (∀ (c : ExaClient) (q m : String),
       isErrText (wsExecuteNet c q (NetOutcome.requestFail m)) = true) ∧
    (∀ (c : ExaClient) (q m : String),
       isErrText (wsExecuteNet c q (NetOutcome.otherFail m)) = true) ∧
    (∀ (c : ExaClient) (u : String) (code : Int) (rbody : String),
       isErrText (pcExecuteNet c u (NetOutcome.httpError code rbody)) = true) ∧
    (∀ (c : ExaClient) (u : String),
       isErrText (pcExecuteNet c u NetOutcome.timeout) = true) ∧
    (∀ (c : ExaClient) (u m : String),
       isErrText (pcExecuteNet c u (NetOutcome.requestFail m)) = true) ∧
    (∀ (c : ExaClient) (u m : String),
       isErrText (pcExecuteNet c u (NetOutcome.otherFail m)) = true) := by
  have hws : ∀ x : String, isErrText ("Web search error: " ++ x) = true :=
    fun x => isErrText_append "Web search error: " x (by decide)
  have hpc : ∀ x : String, isErrText ("Page content error: " ++ x) = true :=
    fun x => isErrText_append "Page content error: " x (by decide)
  have hwse : ∀ x : String, isErrText ("Error: Unexpected web search error: " ++ x) = true :=
    fun x => isErrText_append "Error: Unexpected web search error: " x (by decide)
  have hpce : ∀ x : String, isErrText ("Error: Unexpected page content error: " ++ x) = true :=
    fun x => isErrText_append "Error: Unexpected page content error: " x (by decide)
  have hwsAll : ∀ (c : ExaClient) (q : String) (e : ToolExn),
      isErrText (wsExecute c q (Except.error e)) = true := by
    intro c q e
    cases hav : c.isAvailable with
    | false => simp [wsExecute, hav]; decide
    | true =>
      by_cases hq : pyStrip q = ""
      · simp [wsExecute, hav, hq]; decide
      · cases e with
        | ws err => simp [wsExecute, hav, hq, hws]
        | other m => simp [wsExecute, hav, hq, hwse]
  have hpcAll : ∀ (c : ExaClient) (u : String) (e : ToolExn),
      isErrText (pcExecute c u (Except.error e)) = true := by
    intro c u e
    cases hav : c.isAvailable with
    | false => simp [pcExecute, hav]; decide
    | true =>
      by_cases hu : u = ""
      · simp [pcExecute, hav, hu]; decide
      · cases e with
        | ws err => simp [pcExecute, hav, hu, hpc]
        | other m => simp [pcExecute, hav, hu, hpce]
  have hwsNet : ∀ (c : ExaClient) (q : String) (net : NetOutcome),
      (∀ res, net ≠ NetOutcome.ok res) → isErrText (wsExecuteNet c q net) = true := by
    intro c q net hne
    cases hav : c.isAvailable with
    | false => simp [wsExecuteNet, wsExecute, hav]; decide
    | true =>
      by_cases hq : pyStrip q = ""
      · simp [wsExecuteNet, wsExecute, hav, hq]; decide
      · cases net with
        | ok res => exact absurd rfl (hne res)
        | httpError code rbody =>
          simp [wsExecuteNet, wsBody, clientSearch, hav, hq]
          exact hwsAll c q _
        | timeout =>
          simp [wsExecuteNet, wsBody, clientSearch, hav, hq]
          exact hwsAll c q _
        | requestFail m =>
          simp [wsExecuteNet, wsBody, clientSearch, hav, hq]
          exact hwsAll c q _
        | otherFail m =>
          simp [wsExecuteNet, wsBody, clientSearch, hav, hq]
          exact hwsAll c q _
  have hpcNet : ∀ (c : ExaClient) (u : String) (net : NetOutcome),
      (∀ res, net ≠ NetOutcome.ok res) → isErrText (pcExecuteNet c u net) = true := by
    intro c u net hne
    cases hav : c.isAvailable with
    | false => simp [pcExecuteNet, pcExecute, hav]; decide
    | true =>
      by_cases hu : u = ""
      · simp [pcExecuteNet, pcExecute, hav, hu]; decide
      · cases net with
        | ok res => exact absurd rfl (hne res)
        | httpError code rbody =>
          simp [pcExecuteNet, pcBody, clientGetContent, hav, hu]
          exact hpcAll c u _
        | timeout =>
          simp [pcExecuteNet, pcBody, clientGetContent, hav, hu]
          exact hpcAll c u _
        | requestFail m =>
          simp [pcExecuteNet, pcBody, clientGetContent, hav, hu]
          exact hpcAll c u _
        | otherFail m =>
          simp [pcExecuteNet, pcBody, clientGetContent, hav, hu]
          exact hpcAll c u _
  refine ⟨?_, ?_, ?_, ?_, ?_, ?_, ?_, ?_, ?_, ?_⟩
  · intro c q body
    cases hav : c.isAvailable with
    | false => exact Or.inr (by simp [wsExecute, hav]; decide)
    | true =>
      by_cases hq : pyStrip q = ""
      · exact Or.inr (by simp [wsExecute, hav, hq]; decide)
      · cases body with
        | ok s => exact Or.inl ⟨s, rfl, by simp [wsExecute, hav, hq]⟩
        | error e => exact Or.inr (hwsAll c q e)
  · intro c u body
    cases hav : c.isAvailable with
    | false => exact Or.inr (by simp [pcExecute, hav]; decide)
    | true =>
      by_cases hu : u = ""
      · exact Or.inr (by simp [pcExecute, hav, hu]; decide)
      · cases body with
        | ok s => exact Or.inl ⟨s, rfl, by simp [pcExecute, hav, hu]⟩
        | error e => exact Or.inr (hpcAll c u e)
  · intro c q code rbody
    exact hwsNet c q _ (fun res h => by cases h)
  · intro c q
    exact hwsNet c q _ (fun res h => by cases h)
  · intro c q m
    exact hwsNet c q _ (fun res h => by cases h)
  · intro c q m
    exact hwsNet c q _ (fun res h => by cases h)
  · intro c u code rbody
    exact hpcNet c u _ (fun res h => by cases h)
  · intro c u
    exact hpcNet c u _ (fun res h => by cases h)
  · intro c u m
    exact hpcNet c u _ (fun res h => by cases h)
  · intro c u m
    exact hpcNet c u _ (fun res h => by cases h)

end GptOssAgent
